import Mathlib

/-
Verification of the TypeSocket client (TypeScript WebSocket wrapper) against
its specification. The definitions below are a shallow embedding of the class
TypeSocket in the repository source: the message classifier, the event
registry backed by a JS Set, and the connection state machine with its
open / close / error / message handlers. The JSON decode and encode
primitives are external collaborators in the source, so they appear here as
function parameters; the behaviour of the WebSocket close primitive (which
may raise) is a per-call Boolean parameter.
-/

/-- The decoded JSON values JSON.parse can return. Arrays and objects are
kept as atoms: their contents never influence the control flow of the
source, which only tests the decoded value for JavaScript truthiness. -/
inductive Json where
  | null
  | bool (b : Bool)
  | num (n : Int)
  | str (s : String)
  | arr
  | obj
  deriving DecidableEq, Repr

/-- JavaScript truthiness of a decoded JSON value, as tested by the source
in the statement testing the result of JSON.parse: null, false, 0 and the
empty string are falsy; arrays and objects are always truthy. -/
def truthy : Json → Bool
  | Json.null => false
  | Json.bool b => b
  | Json.num n => n != 0
  | Json.str s => s != ""
  | Json.arr => true
  | Json.obj => true

/-- An inbound or outbound payload: text (a String) or binary (an
ArrayBuffer, modelled as its byte list). -/
inductive Payload where
  | text (s : String)
  | binary (b : List Nat)
  deriving DecidableEq, Repr

/-- The event kinds of the TypeSocketEvents registry, with the argument the
source passes to emit for each. -/
inductive Event where
  | connected
  | disconnected
  | permanentlyDisconnected
  | message (j : Json)
  | rawMessage (p : Payload)
  | invalidMessage (p : Payload)
  | binaryMessage (b : List Nat)
  deriving DecidableEq, Repr

/-- The private method message(data) of TypeSocket: emit rawMessage; for a
string payload try JSON.parse, and when it returns a truthy value emit
message and return; for an ArrayBuffer emit binaryMessage; in every other
case fall through to emit invalidMessage. The decode primitive is the
external collaborator parse (none models a JSON.parse that throws). -/
def classifyMessage (parse : String → Option Json) (p : Payload) : List Event :=
  Event.rawMessage p ::
    match p with
    | Payload.text s =>
      match parse s with
      | some j =>
        if truthy j then [Event.message j] else [Event.invalidMessage p]
      | none => [Event.invalidMessage p]
    | Payload.binary b => [Event.binaryMessage b, Event.invalidMessage p]

/-- A decode oracle for the JSON literals used in concrete runs, agreeing
with JSON.parse on these inputs: the text false decodes to the boolean
false, the text 0 to the number 0, the text null to null; other inputs
model a decode failure. -/
def parseLit : String → Option Json := fun s =>
  if s = "false" then some (Json.bool false)
  else if s = "0" then some (Json.num 0)
  else if s = "null" then some Json.null
  else none

/-- Claim C1 (amended): for a text payload whose decode yields a truthy
value, the classifier fires rawMessage then message and nothing else (in
particular no invalidMessage); for a text payload whose decode fails or
yields a falsy value (null, false, 0 or the empty string), it fires
rawMessage then invalidMessage and no message. -/
theorem C1_text_classification (parse : String → Option Json) (s : String) :
    (∀ j, parse s = some j → truthy j = true →
        classifyMessage parse (Payload.text s) =
          [Event.rawMessage (Payload.text s), Event.message j]) ∧
    (parse s = none →
        classifyMessage parse (Payload.text s) =
          [Event.rawMessage (Payload.text s),
           Event.invalidMessage (Payload.text s)]) ∧
    (∀ j, parse s = some j → truthy j = false →
        classifyMessage parse (Payload.text s) =
          [Event.rawMessage (Payload.text s),
           Event.invalidMessage (Payload.text s)]) := by
  refine ⟨fun j hj ht => ?_, fun hn => ?_, fun j hj ht => ?_⟩
  · simp [classifyMessage, hj, ht]
  · simp [classifyMessage, hn]
  · simp [classifyMessage, hj, ht]

/-- Claim C1, the claim as frozen, refuted at the text payload false: its
decode succeeds and yields the boolean false, a value that is neither null
nor undefined, yet the classifier fires invalidMessage and does not fire
message, because the source tests the decoded value for truthiness rather
than for null. -/
theorem C1_counterexample :
    parseLit "false" = some (Json.bool false) ∧
    Json.bool false ≠ Json.null ∧
    classifyMessage parseLit (Payload.text "false") =
      [Event.rawMessage (Payload.text "false"),
       Event.invalidMessage (Payload.text "false")] ∧
    Event.message (Json.bool false) ∉
      classifyMessage parseLit (Payload.text "false") := by
  decide

/-- Claim C7: a binary payload fires exactly rawMessage, binaryMessage and
invalidMessage, in that order, and never fires message. -/
theorem C7_binary_classification (parse : String → Option Json) (b : List Nat) :
    classifyMessage parse (Payload.binary b) =
      [Event.rawMessage (Payload.binary b), Event.binaryMessage b,
       Event.invalidMessage (Payload.binary b)] ∧
    ∀ j, Event.message j ∉ classifyMessage parse (Payload.binary b) := by
  refine ⟨rfl, fun j h => ?_⟩
  simp [classifyMessage] at h

/-- A listener callback registered in the event registry. The field id is
the reference identity of the callback object; throws records whether
invoking the callback raises an exception. -/
structure Listener where
  id : Nat
  throws : Bool
  deriving DecidableEq, Repr

/-- The method on(eventType, listener) of TypeSocket: Set.prototype.add on
the JS Set for the event kind. A JS Set keeps insertion order and holds no
duplicates, so it is modelled as a duplicate-free list appended to only
when the element is absent. -/
def setAdd (s : List Listener) (l : Listener) : List Listener :=
  if l ∈ s then s else s ++ [l]

/-- The method off(eventType, listener) of TypeSocket: Set.prototype.delete
on the JS Set for the event kind, removing the listener when present (a JS
Set never holds it more than once). -/
def setDelete (s : List Listener) (l : Listener) : List Listener :=
  s.filter (fun x => !(decide (x = l)))

/-- The private method emit of TypeSocket: a for-of loop over the Set for
the event kind, applying every listener in insertion order. The loop body
has no exception handler, so a listener that raises aborts the loop and the
exception escapes emit. The result is the list of listener identities
invoked, in order, paired with whether an exception escaped. -/
def emitRun : List Listener → List Nat × Bool
  | [] => ([], false)
  | l :: rest =>
    if l.throws then ([l.id], true)
    else
      let r := emitRun rest
      (l.id :: r.1, r.2)

/-- Claim C3 (amended): a listener that raises aborts the fan-out. Every
listener registered before it runs, the raising listener itself runs, the
exception escapes emit, and no listener registered after it is invoked in
that fan-out. -/
theorem C3_emit_fault (pre post : List Listener) (l : Listener)
    (hpre : ∀ x ∈ pre, x.throws = false) (hl : l.throws = true) :
    emitRun (pre ++ l :: post) = (pre.map Listener.id ++ [l.id], true) := by
  induction pre with
  | nil => simp [emitRun, hl]
  | cons a as ih =>
    have ha : a.throws = false := hpre a (by simp)
    have ih2 := ih (fun x hx => hpre x (by simp [hx]))
    simp [emitRun, ha, ih2]

/-- Witness for C3_emit_fault: two well-behaved listeners, then a raising
one, then one more; the first three run, the last does not, and the
exception escapes. -/
theorem C3_emit_fault_witness :
    emitRun [⟨7, false⟩, ⟨8, false⟩, ⟨9, true⟩, ⟨10, false⟩] =
      ([7, 8, 9], true) :=
  C3_emit_fault [⟨7, false⟩, ⟨8, false⟩] [⟨10, false⟩] ⟨9, true⟩
    (by decide) (by decide)

/-- Claim C3, the claim as frozen, refuted at a fan-out of two listeners
where the first raises: the second listener, registered for the same event,
is never invoked, because the for-of loop in emit has no per-listener
exception handling. -/
theorem C3_counterexample :
    emitRun [⟨0, true⟩, ⟨1, false⟩] = ([0], true) ∧
    (1 : Nat) ∉ (emitRun [⟨0, true⟩, ⟨1, false⟩]).1 := by
  decide

/-- Claim C9: removing a listener right after adding it leaves a registry
whose fan-out does not invoke it; removing a listener that was never
registered changes nothing; adding the identical listener reference twice
is a no-op under set semantics, and after the add the listener occurs in the
registry exactly once (the registry stays duplicate-free), so one emit
iterates over it exactly once. -/
theorem C9_on_off (s : List Listener) (l : Listener)
    (hnd : s.Nodup) (hl : l ∉ s) :
    l ∉ setDelete (setAdd s l) l ∧
    setDelete s l = s ∧
    setAdd (setAdd s l) l = setAdd s l ∧
    (setAdd s l).Nodup ∧
    (setAdd s l).count l = 1 := by
  refine ⟨?_, ?_, ?_, ?_, ?_⟩
  · intro hmem
    have := (List.mem_filter.mp hmem).2
    simp at this
  · exact List.filter_eq_self.mpr (by
      intro a ha
      simp only [Bool.not_eq_eq_eq_not, Bool.not_true, decide_eq_false_iff_not]
      exact fun h => hl (h ▸ ha))
  · have hmem : l ∈ setAdd s l := by
      rw [setAdd, if_neg hl]
      simp
    rw [setAdd, if_pos hmem]
  · rw [setAdd, if_neg hl]
    simp [List.nodup_append, hnd, List.disjoint_singleton, hl]
  · rw [setAdd, if_neg hl]
    rw [List.count_append]
    rw [List.count_eq_zero_of_not_mem hl]
    simp

/-- Witness for C9_on_off at a concrete registry of one other listener. -/
theorem C9_on_off_witness :
    ⟨3, false⟩ ∉ setDelete (setAdd [⟨5, false⟩] ⟨3, false⟩) ⟨3, false⟩ ∧
    setDelete [⟨5, false⟩] ⟨3, false⟩ = [⟨5, false⟩] ∧
    setAdd (setAdd [⟨5, false⟩] ⟨3, false⟩) ⟨3, false⟩ =
      setAdd [⟨5, false⟩] ⟨3, false⟩ ∧
    (setAdd [⟨5, false⟩] ⟨3, false⟩).Nodup ∧
    (setAdd [⟨5, false⟩] ⟨3, false⟩).count ⟨3, false⟩ = 1 :=
  C9_on_off [⟨5, false⟩] ⟨3, false⟩ (by decide) (by decide)

/-- The TypeSocketOptions record after the constructor merges the caller
options over the defaults: maxRetries (0 keeps retrying forever),
retryOnClose, retryTime in milliseconds. -/
structure Options where
  maxRetries : Nat
  retryOnClose : Bool
  retryTime : Nat
  deriving DecidableEq, Repr

/-- The defaults of the private options field of TypeSocket. -/
def defaultOptions : Options := { maxRetries := 5, retryOnClose := false, retryTime := 500 }

/-- One physical WebSocket as the state machine sees it: which of the four
handler slots of this socket still hold the TypeSocket callbacks (a slot
set to null is false), whether close() was called on it, the ready state
the environment reports for it, and the payloads handed to its send
primitive. -/
structure Socket where
  onopen : Bool
  onclose : Bool
  onerror : Bool
  onmessage : Bool
  closed : Bool
  readyState : Nat
  sent : List Payload
  deriving DecidableEq, Repr

/-- The socket connect() builds: a fresh WebSocket with binaryType set and
all four handlers attached, ready state 0 (connecting), nothing sent. -/
def freshSocket : Socket :=
  { onopen := true, onclose := true, onerror := true, onmessage := true,
    closed := false, readyState := 0, sent := [] }

/-- Replace the element at an index of a list by applying a function to it;
out of range, the list is unchanged. -/
def modifyAt (f : α → α) : Nat → List α → List α
  | _, [] => []
  | 0, a :: as => f a :: as
  | n + 1, a :: as => a :: modifyAt f n as

/-- The state of one TypeSocket instance: every physical socket ever created
for it (a socket handle is its index into this list), the private socket
field as the index of the currently held socket or none for null, the
private retries counter, and the private options. -/
structure TS where
  sockets : List Socket
  current : Option Nat
  retries : Nat
  opts : Options
  deriving DecidableEq, Repr

/-- The socket a handle refers to, if it exists. -/
def TS.sockAt (st : TS) (i : Nat) : Option Socket :=
  st.sockets.get? i

/-- Update one physical socket of the instance in place. -/
def TS.modifySock (st : TS) (i : Nat) (f : Socket → Socket) : TS :=
  { st with sockets := modifyAt f i st.sockets }

/-- The method connect() of TypeSocket. With a socket held, the try block
calls close() on it and then the private disconnected() emitter; when the
close primitive raises (closeRaises), the catch swallows the exception and
the emit is skipped. Either way a fresh WebSocket is then constructed,
stored in the socket field, and its four handlers are attached. The old
handlers are never detached here. Returns the new state and the emitted
events. -/
def connect (closeRaises : Bool) (st : TS) : TS × List Event :=
  let r :=
    match st.current with
    | some i =>
      if closeRaises then (st, ([] : List Event))
      else (st.modifySock i (fun k => { k with closed := true }),
            [Event.disconnected])
    | none => (st, [])
  ({ r.1 with sockets := r.1.sockets ++ [freshSocket],
              current := some r.1.sockets.length }, r.2)

/-- The method disconnect() of TypeSocket. With no socket held it does
nothing. Otherwise the try block nulls the onclose and onerror slots of the
held socket, calls close() on it, and emits disconnected then
permanentlyDisconnected; when close raises, the catch swallows it and both
emits are skipped. The onmessage slot and the socket field itself are left
untouched. -/
def disconnect (closeRaises : Bool) (st : TS) : TS × List Event :=
  match st.current with
  | none => (st, [])
  | some i =>
    let st1 := st.modifySock i (fun k => { k with onclose := false, onerror := false })
    if closeRaises then (st1, [])
    else (st1.modifySock i (fun k => { k with closed := true }),
          [Event.disconnected, Event.permanentlyDisconnected])

/-- The private method reconnectAfterTime of TypeSocket: close the held
socket if any (this call is not inside a try, so a raising close escapes
the method with nothing else done), null the socket field, emit
disconnected, and schedule reconnect() on a timer. The Boolean of the
result records whether the timer was scheduled. -/
def reconnectAfterTime (closeRaises : Bool) (st : TS) : TS × List Event × Bool :=
  match st.current with
  | some i =>
    if closeRaises then (st, [], false)
    else
      let st1 := st.modifySock i (fun k => { k with closed := true })
      ({ st1 with current := none }, [Event.disconnected], true)
  | none => ({ st with current := none }, [Event.disconnected], true)

/-- The private method reconnect of TypeSocket: increment retries; when
maxRetries is non-zero (truthy) and retries now exceeds it, emit
disconnected then permanentlyDisconnected and stop; otherwise call
connect(). -/
def reconnect (closeRaises : Bool) (st : TS) : TS × List Event :=
  let st1 := { st with retries := st.retries + 1 }
  if st1.opts.maxRetries ≠ 0 ∧ st1.retries > st1.opts.maxRetries then
    (st1, [Event.disconnected, Event.permanentlyDisconnected])
  else connect closeRaises st1

/-- The environment fires the open event of socket i. The handler, when
still attached, runs the private connected(): reset retries to 0 and emit
connected. -/
def fireOpen (st : TS) (i : Nat) : TS × List Event :=
  match st.sockAt i with
  | some sock =>
    if sock.onopen then ({ st with retries := 0 }, [Event.connected])
    else (st, [])
  | none => (st, [])

/-- The environment fires the close event of socket i with a close code.
The handler, when still attached, retries via reconnectAfterTime when the
code is 1000 or when retryOnClose is set and the socket field is non-null;
otherwise it emits disconnected then permanentlyDisconnected, leaving the
socket field untouched. The handler reads the current socket field of the
instance, not the socket the event arrived on. -/
def fireClose (closeRaises : Bool) (st : TS) (i : Nat) (code : Nat) :
    TS × List Event × Bool :=
  match st.sockAt i with
  | some sock =>
    if sock.onclose then
      if code == 1000 || (st.opts.retryOnClose && st.current.isSome) then
        reconnectAfterTime closeRaises st
      else (st, [Event.disconnected, Event.permanentlyDisconnected], false)
    else (st, [], false)
  | none => (st, [], false)

/-- The environment fires the error event of socket i. The handler, when
still attached, emits disconnected, nulls the socket field, and calls
reconnectAfterTime. -/
def fireError (closeRaises : Bool) (st : TS) (i : Nat) : TS × List Event × Bool :=
  match st.sockAt i with
  | some sock =>
    if sock.onerror then
      let r := reconnectAfterTime closeRaises { st with current := none }
      (r.1, Event.disconnected :: r.2.1, r.2.2)
    else (st, [], false)
  | none => (st, [], false)

/-- The environment fires the message event of socket i with a payload. The
handler, when still attached, runs the private message(data), which emits
the classification events; the state is unchanged. -/
def fireMessage (parse : String → Option Json) (st : TS) (i : Nat) (p : Payload) :
    TS × List Event :=
  match st.sockAt i with
  | some sock =>
    if sock.onmessage then (st, classifyMessage parse p)
    else (st, [])
  | none => (st, [])

/-- The method send(data) of TypeSocket: return silently when the socket
field is null; otherwise hand JSON.stringify(data) to the send primitive of
the held socket. The encode primitive stringify is the external
collaborator; when it raises, the exception propagates to the caller and
the socket is not touched. -/
def send (stringify : α → Except String String) (st : TS) (d : α) :
    Except String (TS × List Event) :=
  match st.current with
  | none => Except.ok (st, [])
  | some i =>
    match stringify d with
    | Except.ok s =>
      Except.ok (st.modifySock i (fun k => { k with sent := k.sent ++ [Payload.text s] }), [])
    | Except.error e => Except.error e

/-- The method sendRaw(data) of TypeSocket: return silently when the socket
field is null; otherwise hand the payload unmodified to the send primitive
of the held socket. -/
def sendRaw (st : TS) (p : Payload) : TS × List Event :=
  match st.current with
  | none => (st, [])
  | some i =>
    (st.modifySock i (fun k => { k with sent := k.sent ++ [p] }), [])

/-- The getter readyState of TypeSocket: the ready state of the held socket,
or 0 when the socket field is null. -/
def TS.readyState (st : TS) : Nat :=
  match st.current with
  | some i =>
    match st.sockAt i with
    | some sock => sock.readyState
    | none => 0
  | none => 0

/-- An index with an element is within the list. -/
theorem lt_of_get?_eq_some {l : List α} {i : Nat} {a : α}
    (h : l.get? i = some a) : i < l.length := by
  by_contra hlt
  rw [List.get?_eq_none.mpr (Nat.le_of_not_lt hlt)] at h
  exact Option.noConfusion h

/-- modifyAt keeps the length of the list. -/
theorem length_modifyAt (f : α → α) :
    ∀ (i : Nat) (l : List α), (modifyAt f i l).length = l.length
  | 0, [] => rfl
  | _ + 1, [] => rfl
  | 0, _ :: _ => rfl
  | n + 1, _ :: as => by simp [modifyAt, length_modifyAt f n as]

/-- Reading back the modified index gives the function applied to the old
element. -/
theorem get?_modifyAt_self (f : α → α) :
    ∀ (l : List α) (i : Nat) (a : α), l.get? i = some a →
      (modifyAt f i l).get? i = some (f a)
  | [], i, a, h => by simp at h
  | b :: bs, 0, a, h => by
    simp only [List.get?_cons_zero, Option.some.injEq] at h
    subst h
    rfl
  | b :: bs, n + 1, a, h => by
    simpa [modifyAt] using get?_modifyAt_self f bs n a (by simpa using h)

/-- The last index of a replicated list holds the replicated element. -/
theorem get?_replicate_self (a : α) :
    ∀ n : Nat, (List.replicate (n + 1) a).get? n = some a
  | 0 => rfl
  | n + 1 => by
    rw [List.replicate_succ]
    exact get?_replicate_self a n

/-- Modifying the held socket keeps the rest of the instance state. -/
theorem modifySock_fields (st : TS) (i : Nat) (f : Socket → Socket) :
    (st.modifySock i f).current = st.current ∧
    (st.modifySock i f).retries = st.retries ∧
    (st.modifySock i f).opts = st.opts :=
  ⟨rfl, rfl, rfl⟩

/-- Reading back the modified socket of an instance. -/
theorem sockAt_modifySock_self (st : TS) (i : Nat) (f : Socket → Socket)
    (sock : Socket) (hs : st.sockAt i = some sock) :
    (st.modifySock i f).sockAt i = some (f sock) :=
  get?_modifyAt_self f st.sockets i sock hs

/-- Claim C8: send with the socket field null returns silently with no
event and no state change; with a socket held it hands the JSON encoding of
the value to the send primitive of that socket; when the encoder raises,
the exception propagates synchronously to the caller and nothing is sent. -/
theorem C8_send {α : Type} (stringify : α → Except String String) (st : TS) (d : α) :
    (st.current = none → send stringify st d = Except.ok (st, [])) ∧
    (∀ i s, st.current = some i → stringify d = Except.ok s →
        send stringify st d =
          Except.ok
            (st.modifySock i (fun k => { k with sent := k.sent ++ [Payload.text s] }),
             [])) ∧
    (∀ i e, st.current = some i → stringify d = Except.error e →
        send stringify st d = Except.error e) := by
  refine ⟨fun h => ?_, fun i s hc hs => ?_, fun i e hc hs => ?_⟩
  · simp [send, h]
  · simp [send, hc, hs]
  · simp [send, hc, hs]

/-- The standing instance state used in concrete runs: one fresh socket,
held, default options. -/
def stHeld : TS :=
  { sockets := [freshSocket], current := some 0, retries := 0,
    opts := defaultOptions }

/-- Claim C6 (amended): disconnect with a socket held nulls the onclose and
onerror slots of that socket first, so the detachment survives even when
the close primitive raises; the raise is swallowed, but then both emits are
skipped, because they sit inside the same try block: disconnected and
permanentlyDisconnected fire only when close does not raise. With no socket
held, disconnect changes nothing and emits nothing. -/
theorem C6_disconnect (st : TS) (i : Nat) (sock : Socket)
    (hc : st.current = some i) (hs : st.sockAt i = some sock) :
    ((disconnect true st).1.sockAt i =
        some { sock with onclose := false, onerror := false } ∧
     (disconnect true st).2 = []) ∧
    ((disconnect false st).1.sockAt i =
        some { sock with onclose := false, onerror := false, closed := true } ∧
     (disconnect false st).2 =
        [Event.disconnected, Event.permanentlyDisconnected]) ∧
    (∀ (st2 : TS) (c : Bool), st2.current = none → disconnect c st2 = (st2, [])) := by
  have h1 := sockAt_modifySock_self st i
    (fun k => { k with onclose := false, onerror := false }) sock hs
  have h2 := sockAt_modifySock_self
    (st.modifySock i (fun k => { k with onclose := false, onerror := false })) i
    (fun k => { k with closed := true })
    { sock with onclose := false, onerror := false } h1
  refine ⟨⟨?_, ?_⟩, ⟨?_, ?_⟩, fun st2 c h => ?_⟩
  · simpa [disconnect, hc] using h1
  · simp [disconnect, hc]
  · simpa [disconnect, hc] using h2
  · simp [disconnect, hc]
  · simp [disconnect, h]

/-- Witness for C6_disconnect at the standing held instance. -/
theorem C6_disconnect_witness :
    (((disconnect true stHeld).1.sockAt 0 =
        some { freshSocket with onclose := false, onerror := false } ∧
      (disconnect true stHeld).2 = []) ∧
     ((disconnect false stHeld).1.sockAt 0 =
        some { freshSocket with onclose := false, onerror := false, closed := true } ∧
      (disconnect false stHeld).2 =
        [Event.disconnected, Event.permanentlyDisconnected]) ∧
     (∀ (st2 : TS) (c : Bool), st2.current = none →
        disconnect c st2 = (st2, []))) :=
  C6_disconnect stHeld 0 freshSocket rfl rfl

/-- Claim C6, the claim as frozen, refuted at the standing held instance
with a close primitive that raises: the claim requires disconnected and
permanentlyDisconnected to be emitted even then, but the source places both
emits after the close call inside the same try block, so nothing is
emitted. -/
theorem C6_counterexample :
    (disconnect true stHeld).2 = [] ∧
    Event.disconnected ∉ (disconnect true stHeld).2 ∧
    Event.permanentlyDisconnected ∉ (disconnect true stHeld).2 := by
  decide

/-- A decode oracle that always fails, for concrete runs of invalid text. -/
def parseNone : String → Option Json := fun _ => none

/-- Claim C5 (amended): disconnect with a socket held and a close primitive
that does not raise fires disconnected then permanentlyDisconnected exactly
once each, and afterwards a close or error event delivered on that
superseded socket invokes nothing, because its onclose and onerror slots
were nulled; a message event delivered on it, however, still runs the
classifier and fires the classification events, because disconnect leaves
the onmessage slot attached. -/
theorem C5_disconnect_stale (st : TS) (i : Nat) (sock : Socket)
    (hc : st.current = some i) (hs : st.sockAt i = some sock)
    (hm : sock.onmessage = true) :
    (disconnect false st).2 =
      [Event.disconnected, Event.permanentlyDisconnected] ∧
    (∀ (c : Bool) (code : Nat),
        fireClose c (disconnect false st).1 i code =
          ((disconnect false st).1, [], false)) ∧
    (∀ c : Bool,
        fireError c (disconnect false st).1 i = ((disconnect false st).1, [], false)) ∧
    (∀ (parse : String → Option Json) (p : Payload),
        (fireMessage parse (disconnect false st).1 i p).2 =
          classifyMessage parse p) := by
  have h1 := sockAt_modifySock_self st i
    (fun k => { k with onclose := false, onerror := false }) sock hs
  have h2 := sockAt_modifySock_self
    (st.modifySock i (fun k => { k with onclose := false, onerror := false })) i
    (fun k => { k with closed := true })
    { sock with onclose := false, onerror := false } h1
  have hst : (disconnect false st).1.sockAt i =
      some { sock with onclose := false, onerror := false, closed := true } := by
    simpa [disconnect, hc] using h2
  refine ⟨by simp [disconnect, hc], fun c code => ?_, fun c => ?_, fun parse p => ?_⟩
  · simp [fireClose, hst]
  · simp [fireError, hst]
  · simp [fireMessage, hst, hm]

/-- Witness for C5_disconnect_stale at the standing held instance. -/
theorem C5_disconnect_stale_witness :
    ((disconnect false stHeld).2 =
      [Event.disconnected, Event.permanentlyDisconnected] ∧
    (∀ (c : Bool) (code : Nat),
        fireClose c (disconnect false stHeld).1 0 code =
          ((disconnect false stHeld).1, [], false)) ∧
    (∀ c : Bool,
        fireError c (disconnect false stHeld).1 0 =
          ((disconnect false stHeld).1, [], false)) ∧
    (∀ (parse : String → Option Json) (p : Payload),
        (fireMessage parse (disconnect false stHeld).1 0 p).2 =
          classifyMessage parse p)) :=
  C5_disconnect_stale stHeld 0 freshSocket rfl rfl rfl

/-- Claim C5, the claim as frozen, refuted at the standing held instance: a
message event delivered on the socket disconnect acted on still produces
listener invocations (rawMessage then invalidMessage here), because
disconnect nulls only the onclose and onerror slots and leaves onmessage
attached. -/
theorem C5_counterexample :
    (disconnect false stHeld).2 =
      [Event.disconnected, Event.permanentlyDisconnected] ∧
    (fireMessage parseNone (disconnect false stHeld).1 0 (Payload.text "x")).2 =
      [Event.rawMessage (Payload.text "x"),
       Event.invalidMessage (Payload.text "x")] ∧
    (fireMessage parseNone (disconnect false stHeld).1 0 (Payload.text "x")).2 ≠
      [] := by
  decide

/-- Claim C4 (amended): the socket field holds at most one current socket
at any time, and connect with a socket held closes the superseded socket
and emits disconnected, but does not detach any of its callbacks, so an
event arriving on the stale socket can still invoke listeners and state
transitions in the new connection epoch: with its onclose still attached
and retryOnClose unset, a non-normal close on the stale socket emits
disconnected then permanentlyDisconnected even though a fresh socket is
current. -/
theorem C4_connect_no_detach (st : TS) (i : Nat) (sock : Socket)
    (hc : st.current = some i) (hs : st.sockAt i = some sock) :
    (connect false st).1.current = some st.sockets.length ∧
    (∀ j k : Nat, (connect false st).1.current = some j →
        (connect false st).1.current = some k → j = k) ∧
    (connect false st).1.sockAt i = some { sock with closed := true } ∧
    (connect false st).2 = [Event.disconnected] ∧
    (sock.onclose = true → st.opts.retryOnClose = false →
        (fireClose false (connect false st).1 i 1006).2.1 =
          [Event.disconnected, Event.permanentlyDisconnected]) := by
  have hlen : i < (modifyAt (fun k => { k with closed := true }) i st.sockets).length := by
    rw [length_modifyAt]
    exact lt_of_get?_eq_some hs
  have hget : (modifyAt (fun k => { k with closed := true }) i st.sockets).get? i =
      some { sock with closed := true } :=
    get?_modifyAt_self _ st.sockets i sock hs
  have hcur : (connect false st).1.current = some st.sockets.length := by
    simp [connect, hc, TS.modifySock, length_modifyAt]
  have hat : (connect false st).1.sockAt i = some { sock with closed := true } := by
    simp only [connect, hc, Bool.false_eq_true, if_false, TS.sockAt, TS.modifySock]
    rw [List.get?_append hlen]
    exact hget
  refine ⟨hcur, ?_, hat, by simp [connect, hc], fun hon hr => ?_⟩
  · intro j k hj hk
    rw [hj] at hk
    exact (Option.some.injEq _ _).mp hk
  · have hopts : (connect false st).1.opts = st.opts := by
      simp [connect, hc, TS.modifySock]
    simp [fireClose, hat, hon, hopts, hr]

/-- Witness for C4_connect_no_detach at the standing held instance. -/
theorem C4_connect_no_detach_witness :
    ((connect false stHeld).1.current = some stHeld.sockets.length ∧
    (∀ j k : Nat, (connect false stHeld).1.current = some j →
        (connect false stHeld).1.current = some k → j = k) ∧
    (connect false stHeld).1.sockAt 0 = some { freshSocket with closed := true } ∧
    (connect false stHeld).2 = [Event.disconnected] ∧
    (freshSocket.onclose = true → stHeld.opts.retryOnClose = false →
        (fireClose false (connect false stHeld).1 0 1006).2.1 =
          [Event.disconnected, Event.permanentlyDisconnected])) :=
  C4_connect_no_detach stHeld 0 freshSocket rfl rfl

/-- Claim C4, the claim as frozen, refuted at the standing held instance:
after connect supersedes the held socket, the stale socket still has its
onclose callback attached, and a close event with a non-normal code
delivered on it emits disconnected then permanentlyDisconnected into the
new epoch, while socket 1 is the current one. -/
theorem C4_counterexample :
    (connect false stHeld).1.current = some 1 ∧
    (connect false stHeld).1.sockAt 0 =
      some { freshSocket with closed := true } ∧
    ({ freshSocket with closed := true } : Socket).onclose = true ∧
    (fireClose false (connect false stHeld).1 0 1006).2.1 =
      [Event.disconnected, Event.permanentlyDisconnected] := by
  decide

/-- A held instance whose socket the server has closed: ready state 3, all
handlers still attached, default options (retryOnClose unset). -/
def stClosedHeld : TS :=
  { sockets := [{ freshSocket with readyState := 3 }], current := some 0,
    retries := 0, opts := defaultOptions }

/-- Claim C10: when a close event with a non-normal code arrives with
retryOnClose unset, the permanent branch of the close handler emits
disconnected then permanentlyDisconnected and leaves the whole state, in
particular the socket field, untouched: the slot still references the
closed socket, a subsequent send or sendRaw still hands data to that
socket rather than silently returning, and readyState reports that
socket's ready state rather than 0. -/
theorem C10_permanent_close_keeps_slot (st : TS) (i : Nat) (sock : Socket)
    (c : Bool) (code : Nat)
    (hc : st.current = some i) (hs : st.sockAt i = some sock)
    (hon : sock.onclose = true) (hcode : (code == 1000) = false)
    (hr : st.opts.retryOnClose = false) :
    fireClose c st i code =
      (st, [Event.disconnected, Event.permanentlyDisconnected], false) ∧
    st.current = some i ∧
    st.readyState = sock.readyState ∧
    (∀ p, sendRaw st p =
        (st.modifySock i (fun k => { k with sent := k.sent ++ [p] }), [])) ∧
    (∀ (stringify : Nat → Except String String) (d : Nat) (s : String),
        stringify d = Except.ok s →
        send stringify st d =
          Except.ok
            (st.modifySock i
               (fun k => { k with sent := k.sent ++ [Payload.text s] }), [])) := by
  refine ⟨?_, hc, ?_, fun p => ?_, fun stringify d s hsd => ?_⟩
  · simp [fireClose, hs, hon, hcode, hr]
  · simp [TS.readyState, hc, hs]
  · simp [sendRaw, hc]
  · simp [send, hc, hsd]

/-- Witness for C10_permanent_close_keeps_slot: a held socket the server
closed (ready state 3), a 1006 close with retryOnClose unset; the events
fire, the slot keeps the socket, sends still reach it, and readyState is
3, not 0. -/
theorem C10_permanent_close_keeps_slot_witness :
    (fireClose false stClosedHeld 0 1006 =
      (stClosedHeld, [Event.disconnected, Event.permanentlyDisconnected], false) ∧
    stClosedHeld.current = some 0 ∧
    stClosedHeld.readyState = ({ freshSocket with readyState := 3 } : Socket).readyState ∧
    (∀ p, sendRaw stClosedHeld p =
        (stClosedHeld.modifySock 0 (fun k => { k with sent := k.sent ++ [p] }), [])) ∧
    (∀ (stringify : Nat → Except String String) (d : Nat) (s : String),
        stringify d = Except.ok s →
        send stringify stClosedHeld d =
          Except.ok
            (stClosedHeld.modifySock 0
               (fun k => { k with sent := k.sent ++ [Payload.text s] }), []))) :=
  C10_permanent_close_keeps_slot stClosedHeld 0 { freshSocket with readyState := 3 }
    false 1006 rfl rfl rfl (by decide) rfl

/-- The instance as constructed: no socket yet, zero retries. -/
def initTS (opts : Options) : TS :=
  { sockets := [], current := none, retries := 0, opts := opts }

/-- One failed connection attempt as the environment drives it: the error
event fires on the currently held socket, and when the handler scheduled a
retry, the timer later fires reconnect. With no socket held nothing
happens. Returns the next state and all events of the cycle. -/
def failCycle (st : TS) : TS × List Event :=
  match st.current with
  | some i =>
    let r1 := fireError false st i
    if r1.2.2 then
      let r2 := reconnect false r1.1
      (r2.1, r1.2.1 ++ r2.2)
    else (r1.1, r1.2.1)
  | none => (st, [])

/-- The state after the initial connect and k consecutive failed attempts. -/
def afterCycles (opts : Options) : Nat → TS
  | 0 => (connect false (initTS opts)).1
  | k + 1 => (failCycle (afterCycles opts k)).1

/-- The events of failed attempt k + 1 (the cycle leaving state k). -/
def cycleEvents (opts : Options) (k : Nat) : List Event :=
  (failCycle (afterCycles opts k)).2

/-- The canonical state of attempt n + 1: the fresh socket of the attempt
is current, n retries counted so far. -/
def attemptState (opts : Options) (n : Nat) : TS :=
  { sockets := List.replicate (n + 1) freshSocket, current := some n,
    retries := n, opts := opts }

/-- The error event of the current attempt socket: disconnected fires from
the handler and again from reconnectAfterTime, the socket field is nulled,
and the retry timer is scheduled. -/
theorem fireError_attempt (opts : Options) (n : Nat) :
    fireError false (attemptState opts n) n =
      ({ sockets := List.replicate (n + 1) freshSocket, current := none,
         retries := n, opts := opts },
       [Event.disconnected, Event.disconnected], true) := by
  simp [fireError, attemptState, TS.sockAt, get?_replicate_self, freshSocket,
    reconnectAfterTime]

/-- The timed retry while the bound is not exceeded: retries goes up by one
and connect builds the fresh socket of the next attempt. -/
theorem reconnect_attempt (opts : Options) (n : Nat)
    (h : ¬(opts.maxRetries ≠ 0 ∧ n + 1 > opts.maxRetries)) :
    reconnect false
        { sockets := List.replicate (n + 1) freshSocket, current := none,
          retries := n, opts := opts } =
      (attemptState opts (n + 1), []) := by
  simp only [reconnect, connect]
  rw [if_neg (by simpa using h)]
  simp [attemptState, ← List.replicate_succ']

/-- The timed retry once retries would exceed a non-zero bound: emit
disconnected then permanentlyDisconnected and stop without connecting. -/
theorem reconnect_stop (opts : Options) (n : Nat)
    (h : opts.maxRetries ≠ 0 ∧ n + 1 > opts.maxRetries) :
    reconnect false
        { sockets := List.replicate (n + 1) freshSocket, current := none,
          retries := n, opts := opts } =
      ({ sockets := List.replicate (n + 1) freshSocket, current := none,
         retries := n + 1, opts := opts },
       [Event.disconnected, Event.permanentlyDisconnected]) := by
  simp only [reconnect]
  rw [if_pos (by simpa using h)]

/-- A failed cycle from the canonical attempt state, while the retry bound
is not yet exceeded: retries goes up by one, a fresh socket is current, and
the cycle emits disconnected twice (once from the error handler, once from
reconnectAfterTime). -/
theorem attemptState_current (opts : Options) (n : Nat) :
    (attemptState opts n).current = some n := rfl

theorem failCycle_go (opts : Options) (n : Nat)
    (h : ¬(opts.maxRetries ≠ 0 ∧ n + 1 > opts.maxRetries)) :
    failCycle (attemptState opts n) =
      (attemptState opts (n + 1), [Event.disconnected, Event.disconnected]) := by
  have h1 := fireError_attempt opts n
  have h2 := reconnect_attempt opts n h
  simp only [failCycle, attemptState_current, h1, h2]
  rfl

/-- A failed cycle from the canonical attempt state, once retries would
exceed a non-zero bound: reconnect emits disconnected then
permanentlyDisconnected, does not call connect, and leaves no socket
held. -/
theorem failCycle_stop (opts : Options) (n : Nat)
    (h : opts.maxRetries ≠ 0 ∧ n + 1 > opts.maxRetries) :
    failCycle (attemptState opts n) =
      ({ sockets := List.replicate (n + 1) freshSocket, current := none,
         retries := n + 1, opts := opts },
       [Event.disconnected, Event.disconnected,
        Event.disconnected, Event.permanentlyDisconnected]) := by
  have h1 := fireError_attempt opts n
  have h2 := reconnect_stop opts n h
  simp only [failCycle, attemptState_current, h1, h2]
  rfl

/-- Closed form of the attempt states while the bound is not exceeded (or
maxRetries is zero): after k failed cycles the instance holds the fresh
socket of attempt k + 1 and counts k retries. -/
theorem afterCycles_eq (opts : Options) :
    ∀ k : Nat, (opts.maxRetries = 0 ∨ k ≤ opts.maxRetries) →
      afterCycles opts k = attemptState opts k
  | 0, _ => by
    simp [afterCycles, connect, initTS, attemptState, List.replicate]
  | k + 1, h => by
    have hk : opts.maxRetries = 0 ∨ k ≤ opts.maxRetries := by
      rcases h with h | h
      · exact Or.inl h
      · exact Or.inr (Nat.le_of_succ_le h)
    have hcond : ¬(opts.maxRetries ≠ 0 ∧ k + 1 > opts.maxRetries) := by
      rcases h with h | h
      · exact fun hx => hx.1 h
      · exact fun hx => Nat.not_lt_of_le h hx.2
    show (failCycle (afterCycles opts k)).1 = _
    rw [afterCycles_eq opts k hk, failCycle_go opts k hcond]

/-- connect never touches the retries counter (only the open handler resets
it). -/
theorem connect_retries (c : Bool) (st : TS) :
    (connect c st).1.retries = st.retries := by
  cases h : st.current <;> cases c <;> simp [connect, h, TS.modifySock]

/-- Every invocation of reconnect increments the retries counter by one,
whether it gives up or connects again. -/
theorem reconnect_retries (c : Bool) (st : TS) :
    (reconnect c st).1.retries = st.retries + 1 := by
  simp only [reconnect]
  split
  · rfl
  · exact connect_retries c _

/-- Claim C2: with maxRetries N positive, every reconnect invocation
increments retries; each of the first N failed attempts is followed by a
retry that connects again (the canonical state of the next attempt, with
no permanentlyDisconnected emitted); the cycle of failed attempt N + 1
ends in disconnected then permanentlyDisconnected, after which no socket
is held, no new socket was created (connect was not called again), and a
further cycle does nothing; with maxRetries 0 every cycle connects again,
without bound. -/
theorem C2_retry_bound (N : Nat) (rOC : Bool) (t : Nat) (hN : 0 < N) :
    (∀ (c : Bool) (st : TS), (reconnect c st).1.retries = st.retries + 1) ∧
    (∀ k, k < N →
        afterCycles ⟨N, rOC, t⟩ (k + 1) = attemptState ⟨N, rOC, t⟩ (k + 1) ∧
        cycleEvents ⟨N, rOC, t⟩ k = [Event.disconnected, Event.disconnected] ∧
        Event.permanentlyDisconnected ∉ cycleEvents ⟨N, rOC, t⟩ k) ∧
    cycleEvents ⟨N, rOC, t⟩ N =
      [Event.disconnected, Event.disconnected,
       Event.disconnected, Event.permanentlyDisconnected] ∧
    (afterCycles ⟨N, rOC, t⟩ (N + 1)).current = none ∧
    (afterCycles ⟨N, rOC, t⟩ (N + 1)).sockets.length = N + 1 ∧
    (afterCycles ⟨N, rOC, t⟩ (N + 1)).retries = N + 1 ∧
    failCycle (afterCycles ⟨N, rOC, t⟩ (N + 1)) =
      (afterCycles ⟨N, rOC, t⟩ (N + 1), []) ∧
    (∀ k, afterCycles ⟨0, rOC, t⟩ k = attemptState ⟨0, rOC, t⟩ k) := by
  have hNe : N ≠ 0 := Nat.pos_iff_ne_zero.mp hN
  have hcycle : ∀ k, k < N →
      cycleEvents ⟨N, rOC, t⟩ k = [Event.disconnected, Event.disconnected] := by
    intro k hk
    show (failCycle (afterCycles ⟨N, rOC, t⟩ k)).2 = _
    rw [afterCycles_eq ⟨N, rOC, t⟩ k (Or.inr (Nat.le_of_lt hk)),
      failCycle_go ⟨N, rOC, t⟩ k (fun hx => Nat.not_lt_of_le hk hx.2)]
  have hstopEv : cycleEvents ⟨N, rOC, t⟩ N =
      [Event.disconnected, Event.disconnected,
       Event.disconnected, Event.permanentlyDisconnected] := by
    show (failCycle (afterCycles ⟨N, rOC, t⟩ N)).2 = _
    rw [afterCycles_eq ⟨N, rOC, t⟩ N (Or.inr (Nat.le_refl N)),
      failCycle_stop ⟨N, rOC, t⟩ N ⟨hNe, Nat.lt_succ_self N⟩]
  have hstopState : afterCycles ⟨N, rOC, t⟩ (N + 1) =
      { sockets := List.replicate (N + 1) freshSocket, current := none,
        retries := N + 1, opts := ⟨N, rOC, t⟩ } := by
    show (failCycle (afterCycles ⟨N, rOC, t⟩ N)).1 = _
    rw [afterCycles_eq ⟨N, rOC, t⟩ N (Or.inr (Nat.le_refl N)),
      failCycle_stop ⟨N, rOC, t⟩ N ⟨hNe, Nat.lt_succ_self N⟩]
  refine ⟨reconnect_retries, fun k hk => ⟨?_, hcycle k hk, ?_⟩, hstopEv, ?_, ?_, ?_, ?_, ?_⟩
  · exact afterCycles_eq ⟨N, rOC, t⟩ (k + 1) (Or.inr hk)
  · rw [hcycle k hk]
    decide
  · rw [hstopState]
  · rw [hstopState]
    exact List.length_replicate (N + 1) freshSocket
  · rw [hstopState]
  · rw [hstopState]
    rfl
  · intro k
    exact afterCycles_eq ⟨0, rOC, t⟩ k (Or.inl rfl)

/-- Witness for C2_retry_bound at N = 2, retryOnClose unset, retry time
500: three failed attempts in all, permanent disconnect after the third. -/
theorem C2_retry_bound_witness :
    ((∀ (c : Bool) (st : TS), (reconnect c st).1.retries = st.retries + 1) ∧
    (∀ k, k < 2 →
        afterCycles ⟨2, false, 500⟩ (k + 1) = attemptState ⟨2, false, 500⟩ (k + 1) ∧
        cycleEvents ⟨2, false, 500⟩ k = [Event.disconnected, Event.disconnected] ∧
        Event.permanentlyDisconnected ∉ cycleEvents ⟨2, false, 500⟩ k) ∧
    cycleEvents ⟨2, false, 500⟩ 2 =
      [Event.disconnected, Event.disconnected,
       Event.disconnected, Event.permanentlyDisconnected] ∧
    (afterCycles ⟨2, false, 500⟩ 3).current = none ∧
    (afterCycles ⟨2, false, 500⟩ 3).sockets.length = 3 ∧
    (afterCycles ⟨2, false, 500⟩ 3).retries = 3 ∧
    failCycle (afterCycles ⟨2, false, 500⟩ 3) =
      (afterCycles ⟨2, false, 500⟩ 3, []) ∧
    (∀ k, afterCycles ⟨0, false, 500⟩ k = attemptState ⟨0, false, 500⟩ k)) :=
  C2_retry_bound 2 false 500 (Nat.zero_lt_succ 1)
